import Mathlib

/-!
Shallow embedding of `src/scraper.py` and `src/cli.py` from the
post-archiver repository (a YouTube community-post scraper).

The upstream JSON payloads are modelled as Lean structures whose fields are
`Option`-typed exactly where the Python code tolerates (or does not tolerate)
an absent key:
* a Python `d.get(k, default)` becomes `o.f.getD default`;
* a Python `d[k]` (which raises `KeyError` when `k` is absent) becomes a
  match on the `Option` that maps `none` to `Except.error`;
* a Python `lst[0]` (which raises `IndexError` on an empty list) becomes a
  match on the list with `Except.error` in the `nil` case;
* Python exceptions propagating out of a function become `Except String`.

The network is modelled by explicit state passing: the initial browse
response and the list of continuation responses (consumed in order, one per
`get_continuation_data` call) are inputs, and the driver additionally
returns the number of continuation requests it issued (its effect trace).
Running out of continuation responses models a transport failure.
-/

namespace PostArchiver

/-- One element of a `"runs"` list: optional display `text` and an optional
`navigationEndpoint` holding the nested url chain consulted by
`extract_post_data`. -/
structure WebCommandMetadata where
  url : Option String
deriving Repr, DecidableEq, Inhabited

structure CommandMetadata where
  webCommandMetadata : Option WebCommandMetadata
deriving Repr, DecidableEq, Inhabited

structure NavigationEndpoint where
  commandMetadata : Option CommandMetadata
deriving Repr, DecidableEq, Inhabited

structure Run where
  text : Option String
  navigationEndpoint : Option NavigationEndpoint
deriving Repr, DecidableEq, Inhabited

/-- A `{"runs": [...]}` object (used for `contentText` and
`publishedTimeText`). -/
structure RunsObj where
  runs : Option (List Run)
deriving Repr, DecidableEq, Inhabited

/-- A `{"simpleText": ...}` object (used for `voteCount` and the reply
button's `text`). -/
structure SimpleTextObj where
  simpleText : Option String
deriving Repr, DecidableEq, Inhabited

structure ButtonRenderer where
  text : Option SimpleTextObj
deriving Repr, DecidableEq, Inhabited

structure ReplyButton where
  buttonRenderer : Option ButtonRenderer
deriving Repr, DecidableEq, Inhabited

structure CommentActionButtonsRenderer where
  replyButton : Option ReplyButton
deriving Repr, DecidableEq, Inhabited

structure ActionButtons where
  commentActionButtonsRenderer : Option CommentActionButtonsRenderer
deriving Repr, DecidableEq, Inhabited

/-- One element of the `thumbnails` list; its `url` is fetched with a plain
index (`thumbnails[0]['url']`), so absence raises. -/
structure Thumbnail where
  url : Option String
deriving Repr, DecidableEq, Inhabited

structure ImageObj where
  thumbnails : Option (List Thumbnail)
deriving Repr, DecidableEq, Inhabited

structure BackstageImageRenderer where
  image : Option ImageObj
deriving Repr, DecidableEq, Inhabited

structure BackstageAttachment where
  backstageImageRenderer : Option BackstageImageRenderer
deriving Repr, DecidableEq, Inhabited

/-- The post renderer object handed to `PostExtractor.extract_post_data`,
with exactly the keys that function consults. -/
structure PostRenderer where
  postId : Option String
  contentText : Option RunsObj
  publishedTimeText : Option RunsObj
  voteCount : Option SimpleTextObj
  actionButtons : Option ActionButtons
  backstageAttachment : Option BackstageAttachment
deriving Repr, DecidableEq, Inhabited

/-- One entry of the `images` list of a post record. -/
structure ImageEntry where
  standard : String
  high_res : String
deriving Repr, DecidableEq, Inhabited

/-- One entry of the `links` list of a post record. -/
structure LinkEntry where
  text : String
  url : String
deriving Repr, DecidableEq, Inhabited

/-- A value stored in the `post_data` dict: a string, the images list, or
the links list. -/
inductive PVal where
  | s (v : String)
  | imgs (v : List ImageEntry)
  | lnks (v : List LinkEntry)
deriving Repr, DecidableEq, Inhabited

/-- The `post_data` dict is modelled as an insertion-ordered association
list, as Python dicts are. -/
abbrev PData := List (String × PVal)

instance {ε α : Type} [DecidableEq ε] [DecidableEq α] : DecidableEq (Except ε α) := fun a b =>
  match a, b with
  | .error x, .error y =>
      if h : x = y then isTrue (h ▸ rfl) else isFalse fun c => h (by cases c; rfl)
  | .error _, .ok _ => isFalse fun c => by cases c
  | .ok _, .error _ => isFalse fun c => by cases c
  | .ok x, .ok y =>
      if h : x = y then isTrue (h ▸ rfl) else isFalse fun c => h (by cases c; rfl)

/-- Assigning to an existing key of a Python dict replaces its value in
place, keeping the key's position. -/
def setKey (d : PData) (k : String) (v : PVal) : PData :=
  d.map fun p => if p.1 = k then (k, v) else p

/-- Split a character list at every character satisfying `p`, keeping
empty pieces (the common core of the Python `str.split` variants below,
written by structural recursion so that it evaluates). -/
def splitByAux (p : Char → Bool) : List Char → List Char → List String
  | [], cur => [String.mk cur.reverse]
  | c :: cs, cur =>
      if p c then String.mk cur.reverse :: splitByAux p cs []
      else splitByAux p cs (c :: cur)

def pySplit (p : Char → Bool) (s : String) : List String :=
  splitByAux p s.data []

/-- Python `str.isspace` for a single character: true exactly on the
characters CPython treats as whitespace — tab, newline, vertical tab, form
feed, carriage return, the file/group/record/unit separators 1C-1F, space,
next line 85, no-break space A0, ogham space mark 1680, the en/em/etc
spaces 2000-200A, line separator 2028, paragraph separator 2029, narrow
no-break space 202F, medium mathematical space 205F, and ideographic
space 3000. -/
def pyIsSpace (c : Char) : Bool :=
  (0x09 ≤ c.val && c.val ≤ 0x0d) || (0x1c ≤ c.val && c.val ≤ 0x1f) ||
  c.val = 0x20 || c.val = 0x85 || c.val = 0xa0 || c.val = 0x1680 ||
  (0x2000 ≤ c.val && c.val ≤ 0x200a) || c.val = 0x2028 || c.val = 0x2029 ||
  c.val = 0x202f || c.val = 0x205f || c.val = 0x3000

/-- Python `str.split` with no argument: split on whitespace per
`pyIsSpace`, dropping empty pieces. -/
def pySplitWs (s : String) : List String :=
  (pySplit pyIsSpace s).filter fun x => x ≠ ""

/-- Python `str.split` with the one-character separator `=`. -/
def pySplitEq (s : String) : List String :=
  pySplit (fun c => c = '=') s

/-- Python `str.lower`. -/
def pyLower (s : String) : String :=
  String.mk (s.data.map Char.toLower)

/-- Python `str.startswith` with the one-character argument `/`. -/
def startsWithSlash (s : String) : Bool :=
  match s.data with
  | [] => false
  | c :: _ => c = '/'

/-- `PostExtractor.extract_text_content`: join the texts
`run.get("text", "")` of the runs. -/
def extract_text_content (content_runs : List Run) : String :=
  (content_runs.map fun run => run.text.getD "").foldl (· ++ ·) ""

/-- The body of the link loop of `extract_post_data` for one run: a link
entry is produced when the run has a `navigationEndpoint` and the nested
url (after defaulting each level) is nonempty; a root-relative url gets the
platform origin prefixed. -/
def linkOfRun (run : Run) : Option LinkEntry :=
  match run.navigationEndpoint with
  | none => none
  | some ne =>
      let url := (((ne.commandMetadata.getD default).webCommandMetadata.getD
        default).url.getD "")
      if url = "" then none
      else
        let url := if startsWithSlash url then "https://www.youtube.com" ++ url else url
        some ⟨run.text.getD "", url⟩

/-- The timestamp block: `post_renderer.get('publishedTimeText',
\x7b\x7d).get('runs', [\x7b\x7d])[0].get('text', '')`. A present-but-empty
runs list raises `IndexError`. -/
def timestampOf (pr : PostRenderer) : Except String String :=
  match (pr.publishedTimeText.getD default).runs.getD [default] with
  | [] => .error "IndexError: list index out of range"
  | r :: _ => .ok (r.text.getD "")

/-- The likes block: `post_renderer.get('voteCount',
\x7b\x7d).get('simpleText', '0')`. -/
def likesOf (pr : PostRenderer) : String :=
  (pr.voteCount.getD default).simpleText.getD "0"

/-- The chained `.get` lookup producing the Python local `comment_count`:
the reply-button label, defaulting to `0` at the last step. -/
def replyLabel (pr : PostRenderer) : String :=
  (((((pr.actionButtons.getD default).commentActionButtonsRenderer.getD
    default).replyButton.getD default).buttonRenderer.getD
    default).text.getD default).simpleText.getD "0"

/-- The comments block: `comment_count.split()[0] if comment_count else
"0"`. A present, nonempty, all-whitespace label raises `IndexError`. -/
def commentsCountOf (pr : PostRenderer) : Except String String :=
  let comment_count := replyLabel pr
  if comment_count = "" then .ok "0"
  else
    match pySplitWs comment_count with
    | [] => .error "IndexError: list index out of range"
    | w :: _ => .ok w

/-- The images block: if `backstageImageRenderer` is present, `['image']`
and `['thumbnails']` are plain indexings (absence raises `KeyError`); an
empty thumbnails list is skipped; otherwise `thumbnails[0]['url']` is a
plain indexing and the high-res url is
`standard_url.split('=')[0] + '=s2160'`. -/
def imagesOf (pr : PostRenderer) : Except String (List ImageEntry) :=
  match (pr.backstageAttachment.getD default).backstageImageRenderer with
  | none => .ok []
  | some bir =>
      match bir.image with
      | none => .error "KeyError: image"
      | some imageObj =>
          match imageObj.thumbnails with
          | none => .error "KeyError: thumbnails"
          | some thumbnails =>
              match thumbnails with
              | [] => .ok []
              | t :: _ =>
                  match t.url with
                  | none => .error "KeyError: url"
                  | some standard_url =>
                      let high_res_url := (pySplitEq standard_url).headD "" ++ "=s2160"
                      .ok [⟨standard_url, high_res_url⟩]

/-- `PostExtractor.extract_post_data`: build the seven-key `post_data`
dict with its defaults, then fill each field from the renderer, following
the Python statement order. Any `KeyError`/`IndexError` raised by a block
propagates as `Except.error`. -/
def extract_post_data (pr : PostRenderer) : Except String PData := do
  let post_data : PData := [
    ("post_id", .s (pr.postId.getD "")),
    ("content", .s ""),
    ("timestamp", .s ""),
    ("likes", .s "0"),
    ("comments_count", .s "0"),
    ("images", .imgs []),
    ("links", .lnks [])]
  let post_data :=
    match (pr.contentText.getD default).runs with
    | none => post_data
    | some runs =>
        let post_data := setKey post_data "content" (.s (extract_text_content runs))
        setKey post_data "links" (.lnks (runs.filterMap linkOfRun))
  let ts ← timestampOf pr
  let post_data := setKey post_data "timestamp" (.s ts)
  let post_data := setKey post_data "likes" (.s (likesOf pr))
  let cc ← commentsCountOf pr
  let post_data := setKey post_data "comments_count" (.s cc)
  let imgs ← imagesOf pr
  let post_data :=
    match imgs with
    | [] => post_data
    | _ => setKey post_data "images" (.imgs imgs)
  return post_data

/-- The `continuationCommand` object: the token is reached by plain
indexing, so model it as optional with absence raising. -/
structure ContinuationCommand where
  token : Option String
deriving Repr, DecidableEq, Inhabited

structure ContinuationEndpoint where
  continuationCommand : Option ContinuationCommand
deriving Repr, DecidableEq, Inhabited

structure ContinuationItemRenderer where
  continuationEndpoint : Option ContinuationEndpoint
deriving Repr, DecidableEq, Inhabited

structure PostWrapper where
  backstagePostRenderer : Option PostRenderer
deriving Repr, DecidableEq, Inhabited

structure PostThread where
  post : Option PostWrapper
deriving Repr, DecidableEq, Inhabited

/-- One element of a page's item list. A Python dict may carry either key,
both, or neither; `continuationItemRenderer.isSome` models
`'continuationItemRenderer' in item`, and likewise for the post thread. -/
structure Item where
  continuationItemRenderer : Option ContinuationItemRenderer
  backstagePostThreadRenderer : Option PostThread
deriving Repr, DecidableEq, Inhabited

structure ItemSectionRenderer where
  contents : Option (List Item)
deriving Repr, DecidableEq, Inhabited

structure SectionContent where
  itemSectionRenderer : Option ItemSectionRenderer
deriving Repr, DecidableEq, Inhabited

structure SectionListRenderer where
  contents : Option (List SectionContent)
deriving Repr, DecidableEq, Inhabited

structure TabContent where
  sectionListRenderer : Option SectionListRenderer
deriving Repr, DecidableEq, Inhabited

structure TabRenderer where
  title : Option String
  content : Option TabContent
deriving Repr, DecidableEq, Inhabited

structure Tab where
  tabRenderer : Option TabRenderer
deriving Repr, DecidableEq, Inhabited

structure TwoColumnBrowseResultsRenderer where
  tabs : Option (List Tab)
deriving Repr, DecidableEq, Inhabited

structure ResponseContents where
  twoColumnBrowseResultsRenderer : Option TwoColumnBrowseResultsRenderer
deriving Repr, DecidableEq, Inhabited

/-- The initial browse response, with the keys the driver indexes. -/
structure InitialResponse where
  contents : Option ResponseContents
deriving Repr, DecidableEq, Inhabited

structure AppendContinuationItemsAction where
  continuationItems : Option (List Item)
deriving Repr, DecidableEq, Inhabited

structure ReceivedEndpoint where
  appendContinuationItemsAction : Option AppendContinuationItemsAction
deriving Repr, DecidableEq, Inhabited

/-- A continuation response, with the keys the driver indexes. -/
structure ContResponse where
  onResponseReceivedEndpoints : Option (List ReceivedEndpoint)
deriving Repr, DecidableEq, Inhabited

/-- The condition `'tabRenderer' in tab and
tab['tabRenderer'].get('title', '').lower() == 'community'`. -/
def isCommunityTab (tab : Tab) : Bool :=
  match tab.tabRenderer with
  | none => false
  | some tr => pyLower (tr.title.getD "") == "community"

/-- Lift a Python `d[k]` on an optional field into `Except`. -/
def need (o : Option α) (msg : String) : Except String α :=
  match o with
  | none => .error msg
  | some a => .ok a

/-- Find the community tab and extract the initial item list:
`response['contents']['twoColumnBrowseResultsRenderer']['tabs']`, the
`isCommunityTab` scan (raising `Community tab not found` when it fails),
then `community_tab['content']['sectionListRenderer']['contents'][0]
['itemSectionRenderer']['contents']`. -/
def getCommunityContents (response : InitialResponse) : Except String (List Item) := do
  let rc ← need response.contents "KeyError: contents"
  let tcb ← need rc.twoColumnBrowseResultsRenderer "KeyError: twoColumnBrowseResultsRenderer"
  let tabs ← need tcb.tabs "KeyError: tabs"
  let community_tab ←
    match tabs.find? isCommunityTab with
    | none => .error "Community tab not found"
    | some tab => need tab.tabRenderer "KeyError: tabRenderer"
  let tc ← need community_tab.content "KeyError: content"
  let slr ← need tc.sectionListRenderer "KeyError: sectionListRenderer"
  let scs ← need slr.contents "KeyError: contents"
  let sc ← match scs with
    | [] => .error "IndexError: list index out of range"
    | sc :: _ => .ok sc
  let isr ← need sc.itemSectionRenderer "KeyError: itemSectionRenderer"
  need isr.contents "KeyError: contents"

/-- The continuation envelope:
`response['onResponseReceivedEndpoints'][0]
['appendContinuationItemsAction']['continuationItems']`. -/
def getContinuationContents (response : ContResponse) : Except String (List Item) := do
  let eps ← need response.onResponseReceivedEndpoints "KeyError: onResponseReceivedEndpoints"
  let ep ← match eps with
    | [] => .error "IndexError: list index out of range"
    | ep :: _ => .ok ep
  let ac ← need ep.appendContinuationItemsAction "KeyError: appendContinuationItemsAction"
  need ac.continuationItems "KeyError: continuationItems"

/-- The token computation: `next((item for item in contents if
'continuationItemRenderer' in item), None)` followed by the plain-indexing
chain down to `['token']` when a marker item was found. -/
def getToken (contents : List Item) : Except String (Option String) :=
  match contents.find? (fun item => item.continuationItemRenderer.isSome) with
  | none => .ok none
  | some continuation_item => do
      let cir ← need continuation_item.continuationItemRenderer "KeyError: continuationItemRenderer"
      let ce ← need cir.continuationEndpoint "KeyError: continuationEndpoint"
      let cc ← need ce.continuationCommand "KeyError: continuationCommand"
      let tk ← need cc.token "KeyError: token"
      .ok (some tk)

/-- Python truthiness of the running `token` variable: `None` and the empty
string are falsy. -/
def tokenTruthy : Option String → Bool
  | none => false
  | some s => s ≠ ""

/-- `len(posts) >= max_posts`, with the unbounded default `float('inf')`
modelled as `none` (always false). -/
def reachedMax (maxPosts : Option Nat) (n : Nat) : Bool :=
  match maxPosts with
  | none => false
  | some m => m ≤ n

/-- `len(posts) < max_posts` (the while-loop guard). -/
def underMax (maxPosts : Option Nat) (n : Nat) : Bool :=
  match maxPosts with
  | none => true
  | some m => n < m

/-- The per-page post loop: for each item carrying
`backstagePostThreadRenderer`, index down to the post renderer, extract it,
append it, and return early (second component `true`) as soon as
`len(posts) >= max_posts`. -/
def processContents (maxPosts : Option Nat) (acc : List PData) :
    List Item → Except String (List PData × Bool)
  | [] => .ok (acc, false)
  | item :: rest =>
    match item.backstagePostThreadRenderer with
    | none => processContents maxPosts acc rest
    | some thread => do
        let pw ← need thread.post "KeyError: post"
        let pr ← need pw.backstagePostRenderer "KeyError: backstagePostRenderer"
        let post_data ← extract_post_data pr
        let acc := acc ++ [post_data]
        if reachedMax maxPosts acc.length then .ok (acc, true)
        else processContents maxPosts acc rest

/-- The `while token and len(posts) < max_posts` loop. Each iteration
consumes the next continuation response (an exhausted list models a failed
`get_continuation_data` call); `nreq` counts the continuation requests
issued. The Python early `return posts` maps to the `early` branch. -/
def scrapeLoop (maxPosts : Option Nat) :
    List ContResponse → List PData → Option String → Nat →
    Except String (List PData × Nat)
  | contPages, posts, token, nreq =>
    if tokenTruthy token && underMax maxPosts posts.length then
      match contPages with
      | [] => .error "API request failed"
      | response :: rest => do
          let contents ← getContinuationContents response
          let newToken ← getToken contents
          let (posts', early) ← processContents maxPosts posts contents
          if early then .ok (posts', nreq + 1)
          else scrapeLoop maxPosts rest posts' newToken (nreq + 1)
    else .ok (posts, nreq)

/-- The body of the `try` block of `scrape_community_posts`: locate the
community section, read the token, process the initial posts (with early
return), then run the continuation loop. -/
def scrapeBody (response : InitialResponse)
    (contPages : List ContResponse) (maxPosts : Option Nat) :
    Except String (List PData × Nat) := do
  let contents ← getCommunityContents response
  let token ← getToken contents
  let (posts, early) ← processContents maxPosts [] contents
  if early then .ok (posts, 0)
  else scrapeLoop maxPosts contPages posts token 0

/-- `scrape_community_posts`: run the `try` block; every error raised
inside it is re-wrapped with the `Failed to parse YouTube response: `
message, as the `except` clause does. The second component of the result
is the number of continuation requests issued. -/
def scrape_community_posts (response : InitialResponse)
    (contPages : List ContResponse) (maxPosts : Option Nat) :
    Except String (List PData × Nat) :=
  match scrapeBody response contPages maxPosts with
  | .error e => .error ("Failed to parse YouTube response: " ++ e)
  | .ok r => .ok r

/-- The deterministic part of the document `save_posts` writes (the two
wall-clock fields are omitted from the model). -/
structure SavedDoc where
  channel_id : String
  posts_count : Nat
  posts : List PData
deriving Repr, DecidableEq, Inhabited

/-- `save_posts` builds the output document with `posts_count =
len(posts)`. -/
def save_posts (posts : List PData) (channel_id : String) : SavedDoc :=
  { channel_id := channel_id, posts_count := posts.length, posts := posts }

/-- `cli.main`: scrape, and only on success build and write the output
document; any failure produces no output file (`Except.error`). -/
def run_main (response : InitialResponse) (contPages : List ContResponse)
    (numPosts : Option Nat) (channelId : String) : Except String SavedDoc :=
  match scrape_community_posts response contPages numPosts with
  | .error e => .error e
  | .ok (posts, _) => .ok (save_posts posts channelId)

/-! ### Fixtures and derived forms used by the theorems -/

/-- An item carrying only a post thread (the usual post item). -/
def postItem (pr : PostRenderer) : Item :=
  ⟨none, some ⟨some ⟨some pr⟩⟩⟩

/-- An item carrying only a well-formed continuation marker with token `t`. -/
def markerItem (t : String) : Item :=
  ⟨some ⟨some ⟨some ⟨some t⟩⟩⟩, none⟩

/-- A post renderer with every optional key absent. -/
def blankRenderer : PostRenderer :=
  ⟨none, none, none, none, none, none⟩

/-- The all-defaults post record. -/
def blankRecord : PData :=
  [("post_id", .s ""), ("content", .s ""), ("timestamp", .s ""),
   ("likes", .s "0"), ("comments_count", .s "0"),
   ("images", .imgs []), ("links", .lnks [])]

/-- An initial response whose community tab holds the given item list. -/
def mkInitialResponse (items : List Item) : InitialResponse :=
  { contents := some { twoColumnBrowseResultsRenderer := some { tabs := some [
      { tabRenderer := some { title := some "Community", content := some {
          sectionListRenderer := some { contents := some [
            { itemSectionRenderer := some { contents := some items } } ] } } } } ] } } }

/-- A continuation response holding the given item list. -/
def mkContResponse (items : List Item) : ContResponse :=
  ⟨some [⟨some ⟨some items⟩⟩]⟩

/-- Python dict lookup `d[k]` on a post record. -/
def getVal (d : PData) (k : String) : Option PVal :=
  (d.find? fun p => p.1 == k).map Prod.snd

/-- The value the content field ends up with: the run concatenation when a
runs list is present, the default otherwise. -/
def contentOf (pr : PostRenderer) : String :=
  match (pr.contentText.getD default).runs with
  | none => ""
  | some runs => extract_text_content runs

/-- The value the links field ends up with: one entry per run with a
nonempty navigation url, in document order. -/
def linksOf (pr : PostRenderer) : List LinkEntry :=
  match (pr.contentText.getD default).runs with
  | none => []
  | some runs => runs.filterMap linkOfRun

/-- Number of post-thread items in an item list. -/
def countPosts (contents : List Item) : Nat :=
  contents.countP fun item => item.backstagePostThreadRenderer.isSome

/-- Normal form of a successful extraction: when the three fallible blocks
succeed, `extract_post_data` returns exactly the seven-key record. -/
theorem extract_post_data_spec (pr : PostRenderer) (ts cc : String)
    (imgs : List ImageEntry) (hts : timestampOf pr = .ok ts)
    (hcc : commentsCountOf pr = .ok cc) (himgs : imagesOf pr = .ok imgs) :
    extract_post_data pr = .ok [
      ("post_id", .s (pr.postId.getD "")),
      ("content", .s (contentOf pr)),
      ("timestamp", .s ts),
      ("likes", .s (likesOf pr)),
      ("comments_count", .s cc),
      ("images", .imgs imgs),
      ("links", .lnks (linksOf pr))] := by
  unfold extract_post_data
  rw [hts, hcc, himgs]
  cases hruns : (pr.contentText.getD default).runs with
  | none =>
      cases imgs with
      | nil => simp [setKey, contentOf, linksOf, hruns]; rfl
      | cons e es => simp [setKey, contentOf, linksOf, hruns]; rfl
  | some runs =>
      cases imgs with
      | nil => simp [setKey, contentOf, linksOf, hruns]; rfl
      | cons e es => simp [setKey, contentOf, linksOf, hruns]; rfl

theorem except_bind_ok (a : α) (f : α → Except ε β) :
    (Except.ok a >>= f) = f a := rfl

theorem except_bind_error (e : ε) (f : α → Except ε β) :
    ((Except.error e : Except ε α) >>= f) = .error e := rfl

/-- Inversion of a successful extraction: the three fallible blocks
succeeded and the record is the seven-key normal form. -/
theorem extract_post_data_ok_inv (pr : PostRenderer) (d : PData)
    (h : extract_post_data pr = .ok d) :
    ∃ ts cc imgs, timestampOf pr = .ok ts ∧ commentsCountOf pr = .ok cc ∧
      imagesOf pr = .ok imgs ∧
      d = [("post_id", .s (pr.postId.getD "")),
           ("content", .s (contentOf pr)),
           ("timestamp", .s ts),
           ("likes", .s (likesOf pr)),
           ("comments_count", .s cc),
           ("images", .imgs imgs),
           ("links", .lnks (linksOf pr))] := by
  cases hts : timestampOf pr with
  | error e =>
      unfold extract_post_data at h
      rw [hts] at h
      rw [except_bind_error] at h
      exact Except.noConfusion h
  | ok ts =>
      cases hcc : commentsCountOf pr with
      | error e =>
          unfold extract_post_data at h
          rw [hts, except_bind_ok] at h
          rw [hcc, except_bind_error] at h
          exact Except.noConfusion h
      | ok cc =>
          cases himgs : imagesOf pr with
          | error e =>
              unfold extract_post_data at h
              rw [hts, except_bind_ok, hcc, except_bind_ok] at h
              rw [himgs, except_bind_error] at h
              exact Except.noConfusion h
          | ok imgs =>
              refine ⟨ts, cc, imgs, rfl, rfl, rfl, ?_⟩
              have hspec := extract_post_data_spec pr ts cc imgs hts hcc himgs
              rw [h] at hspec
              exact Except.ok.inj hspec

theorem getToken_nil : getToken [] = .ok none := rfl

theorem getToken_post_cons (pr : PostRenderer) (rest : List Item) :
    getToken (postItem pr :: rest) = getToken rest := by
  simp [getToken, postItem, List.find?]

theorem getToken_marker_cons (t : String) (rest : List Item) :
    getToken (markerItem t :: rest) = .ok (some t) := rfl

theorem processContents_nil (m : Option Nat) (acc : List PData) :
    processContents m acc [] = .ok (acc, false) := rfl

theorem processContents_marker_cons (m : Option Nat) (acc : List PData)
    (t : String) (rest : List Item) :
    processContents m acc (markerItem t :: rest) = processContents m acc rest := rfl

theorem processContents_post_cons (pr : PostRenderer) (d : PData)
    (h : extract_post_data pr = .ok d) (m : Option Nat) (acc : List PData)
    (rest : List Item) :
    processContents m acc (postItem pr :: rest) =
      if reachedMax m (acc.length + 1) then .ok (acc ++ [d], true)
      else processContents m (acc ++ [d]) rest := by
  simp [processContents, postItem, need, h, except_bind_ok]

theorem isCommunityTab_mk (tc : TabContent) :
    isCommunityTab ⟨some ⟨some "Community", some tc⟩⟩ = true := by
  show (pyLower "Community" == "community") = true
  decide

theorem getCommunityContents_mk (items : List Item) :
    getCommunityContents (mkInitialResponse items) = .ok items := rfl

theorem getContinuationContents_mk (items : List Item) :
    getContinuationContents (mkContResponse items) = .ok items := rfl

/-- With no maximum, a successful page scan never returns early and adds
exactly one record per post-thread item. -/
theorem processContents_none_count :
    ∀ (contents : List Item) (acc l : List PData) (e : Bool),
      processContents none acc contents = .ok (l, e) →
      l.length = acc.length + countPosts contents ∧ e = false := by
  intro contents
  induction contents with
  | nil =>
      intro acc l e h
      rw [processContents_nil] at h
      obtain ⟨h1, h2⟩ := Prod.mk.injEq _ _ _ _ ▸ Except.ok.inj h
      exact ⟨by simp [← h1, countPosts], h2.symm⟩
  | cons item rest ih =>
      intro acc l e h
      cases hbp : item.backstagePostThreadRenderer with
      | none =>
          rw [show processContents none acc (item :: rest) =
              processContents none acc rest from by
            simp [processContents, hbp]] at h
          obtain ⟨h1, h2⟩ := ih acc l e h
          exact ⟨by rw [h1]; simp [countPosts, List.countP_cons, hbp], h2⟩
      | some thread =>
          cases hpo : thread.post with
          | none =>
              simp [processContents, hbp, hpo, need, except_bind_error] at h
          | some pw =>
              cases hbr : pw.backstagePostRenderer with
              | none =>
                  simp [processContents, hbp, hpo, hbr, need,
                    except_bind_error, except_bind_ok] at h
              | some pr =>
                  cases hed : extract_post_data pr with
                  | error e2 =>
                      simp [processContents, hbp, hpo, hbr, hed, need,
                        except_bind_error, except_bind_ok] at h
                  | ok d =>
                      rw [show processContents none acc (item :: rest) =
                          processContents none (acc ++ [d]) rest from by
                        simp [processContents, hbp, hpo, hbr, hed, need,
                          except_bind_ok, reachedMax]] at h
                      obtain ⟨h1, h2⟩ := ih (acc ++ [d]) l e h
                      refine ⟨?_, h2⟩
                      rw [h1]
                      simp [countPosts, List.countP_cons, hbp]
                      omega

/-- With maximum `n`, a page scan started strictly below `n` never
accumulates more than `n` records. -/
theorem processContents_some_le (n : Nat) :
    ∀ (contents : List Item) (acc l : List PData) (e : Bool),
      acc.length < n →
      processContents (some n) acc contents = .ok (l, e) →
      l.length ≤ n := by
  intro contents
  induction contents with
  | nil =>
      intro acc l e hlt h
      rw [processContents_nil] at h
      obtain ⟨h1, _⟩ := Prod.mk.injEq _ _ _ _ ▸ Except.ok.inj h
      rw [← h1]
      omega
  | cons item rest ih =>
      intro acc l e hlt h
      cases hbp : item.backstagePostThreadRenderer with
      | none =>
          rw [show processContents (some n) acc (item :: rest) =
              processContents (some n) acc rest from by
            simp [processContents, hbp]] at h
          exact ih acc l e hlt h
      | some thread =>
          cases hpo : thread.post with
          | none =>
              simp [processContents, hbp, hpo, need, except_bind_error] at h
          | some pw =>
              cases hbr : pw.backstagePostRenderer with
              | none =>
                  simp [processContents, hbp, hpo, hbr, need,
                    except_bind_error, except_bind_ok] at h
              | some pr =>
                  cases hed : extract_post_data pr with
                  | error e2 =>
                      simp [processContents, hbp, hpo, hbr, hed, need,
                        except_bind_error, except_bind_ok] at h
                  | ok d =>
                      by_cases hm : n ≤ acc.length + 1
                      · rw [show processContents (some n) acc (item :: rest) =
                            .ok (acc ++ [d], true) from by
                          simp [processContents, hbp, hpo, hbr, hed, need,
                            except_bind_ok, reachedMax, hm]] at h
                        obtain ⟨h1, _⟩ := Prod.mk.injEq _ _ _ _ ▸ Except.ok.inj h
                        rw [← h1]
                        simp
                        omega
                      · rw [show processContents (some n) acc (item :: rest) =
                            processContents (some n) (acc ++ [d]) rest from by
                          simp [processContents, hbp, hpo, hbr, hed, need,
                            except_bind_ok, reachedMax, hm]] at h
                        refine ih (acc ++ [d]) l e ?_ h
                        simp
                        omega

/-- With maximum `n`, the continuation loop preserves the bound `n` on the
accumulated posts. -/
theorem scrapeLoop_le (n : Nat) :
    ∀ (pages : List ContResponse) (posts : List PData) (token : Option String)
      (nreq : Nat) (l : List PData) (r : Nat),
      posts.length ≤ n →
      scrapeLoop (some n) pages posts token nreq = .ok (l, r) →
      l.length ≤ n := by
  intro pages
  induction pages with
  | nil =>
      intro posts token nreq l r hle h
      cases hcond : tokenTruthy token && underMax (some n) posts.length with
      | true => simp [scrapeLoop, hcond] at h
      | false =>
          simp [scrapeLoop, hcond] at h
          rw [← h.1]
          exact hle
  | cons page rest ih =>
      intro posts token nreq l r hle h
      cases hcond : tokenTruthy token && underMax (some n) posts.length with
      | false =>
          simp [scrapeLoop, hcond] at h
          rw [← h.1]
          exact hle
      | true =>
          have hlt : posts.length < n := by
            have := (Bool.and_eq_true _ _).mp hcond
            simpa [underMax] using this.2
          cases hgc : getContinuationContents page with
          | error e => simp [scrapeLoop, hcond, hgc, except_bind_error] at h
          | ok contents =>
              cases hgt : getToken contents with
              | error e =>
                  simp [scrapeLoop, hcond, hgc, hgt, except_bind_error,
                    except_bind_ok] at h
              | ok newTok =>
                  cases hpc : processContents (some n) posts contents with
                  | error e =>
                      simp [scrapeLoop, hcond, hgc, hgt, hpc,
                        except_bind_error, except_bind_ok] at h
                  | ok pe =>
                      obtain ⟨posts', early⟩ := pe
                      have hple : posts'.length ≤ n :=
                        processContents_some_le n contents posts posts' early hlt hpc
                      cases early with
                      | true =>
                          simp [scrapeLoop, hcond, hgc, hgt, hpc,
                            except_bind_ok] at h
                          rw [← h.1]
                          exact hple
                      | false =>
                          rw [show scrapeLoop (some n) (page :: rest) posts token nreq =
                              scrapeLoop (some n) rest posts' newTok (nreq + 1) from by
                            simp [scrapeLoop, hcond, hgc, hgt, hpc,
                              except_bind_ok]] at h
                          exact ih posts' newTok (nreq + 1) l r hple h

/-! ### Claim theorems -/

/-- The shape condition under which the images block of
`extract_post_data` cannot raise: either no `backstageImageRenderer` is
present, or it carries an `image` object with a `thumbnails` list that is
empty or whose first element has a `url`. -/
def imageShapeSafe (pr : PostRenderer) : Prop :=
  match (pr.backstageAttachment.getD default).backstageImageRenderer with
  | none => True
  | some bir => ∃ thumbs, bir.image = some ⟨some thumbs⟩ ∧
      (thumbs = [] ∨ ∃ u trest, thumbs = ⟨some u⟩ :: trest)

/-- A renderer whose image attachment is present but carries no nested
`image` object. -/
def c1BadRenderer : PostRenderer :=
  { blankRenderer with backstageAttachment := some ⟨some ⟨none⟩⟩ }

/-- C1 counterexample: the claim says extraction never fails for any post
renderer, but a renderer whose image attachment lacks the nested `image`
object makes `extract_post_data` raise a `KeyError` instead of defaulting. -/
theorem c1_counterexample :
    extract_post_data c1BadRenderer = .error "KeyError: image" := by decide

/-- C1 (amended): `extract_post_data` returns a record whenever the image
attachment, if present at all, carries its nested image object with a
thumbnails list whose first element (if any) has a url, a present
timestamp run list is nonempty, and a present nonempty reply-button label
has a nonempty whitespace-split; in particular the absence of any of the
optional fields (content runs, timestamp, vote count, reply-button label,
image attachment) only produces that field's default. -/
theorem c1_field_defaults (pr : PostRenderer)
    (h1 : (pr.publishedTimeText.getD default).runs ≠ some [])
    (h2 : replyLabel pr = "" ∨ pySplitWs (replyLabel pr) ≠ [])
    (h3 : imageShapeSafe pr) :
    ∃ d, extract_post_data pr = .ok d := by
  have hts : ∃ ts, timestampOf pr = .ok ts := by
    cases hr : (pr.publishedTimeText.getD default).runs with
    | none => exact ⟨(default : Run).text.getD "", by simp [timestampOf, hr]⟩
    | some rl =>
        cases rl with
        | nil => exact absurd hr h1
        | cons r rrest => exact ⟨r.text.getD "", by simp [timestampOf, hr]⟩
  have hcc : ∃ cc, commentsCountOf pr = .ok cc := by
    by_cases he : replyLabel pr = ""
    · exact ⟨"0", by simp [commentsCountOf, he]⟩
    · cases hs : pySplitWs (replyLabel pr) with
      | nil =>
          rcases h2 with h2 | h2
          · exact absurd h2 he
          · exact absurd hs h2
      | cons w ws => exact ⟨w, by simp [commentsCountOf, he, hs]⟩
  have himgs : ∃ imgs, imagesOf pr = .ok imgs := by
    unfold imageShapeSafe at h3
    cases hbir : (pr.backstageAttachment.getD default).backstageImageRenderer with
    | none => exact ⟨[], by simp [imagesOf, hbir]⟩
    | some bir =>
        rw [hbir] at h3
        obtain ⟨thumbs, himg, hsh⟩ := h3
        rcases hsh with rfl | ⟨u, trest, rfl⟩
        · exact ⟨[], by simp [imagesOf, hbir, himg]⟩
        · exact ⟨[⟨u, (pySplitEq u).headD "" ++ "=s2160"⟩],
            by simp [imagesOf, hbir, himg]⟩
  obtain ⟨ts, hts⟩ := hts
  obtain ⟨cc, hcc⟩ := hcc
  obtain ⟨imgs, himgs⟩ := himgs
  exact ⟨_, extract_post_data_spec pr ts cc imgs hts hcc himgs⟩

/-- C1 witness: the all-absent renderer extracts successfully. -/
theorem c1_field_defaults_witness :
    ∃ d, extract_post_data blankRenderer = .ok d :=
  c1_field_defaults blankRenderer (by decide) (Or.inr (by decide)) trivial

/-- C2 counterexample: with a requested maximum of 0 and one available
post, the scraper returns 1 post, exceeding the requested maximum
(the max check runs only after a post is appended). -/
theorem c2_counterexample :
    scrape_community_posts (mkInitialResponse [postItem blankRenderer]) []
      (some 0) = .ok ([blankRecord], 0) ∧
    ¬ ([blankRecord] : List PData).length ≤ 0 := by
  exact ⟨by decide, by decide⟩

/-- C2 (amended): for every requested maximum `n ≥ 1`, the post list
returned by `scrape_community_posts` has length at most `n`. -/
theorem c2_max_bound (response : InitialResponse) (pages : List ContResponse)
    (n : Nat) (l : List PData) (r : Nat) (hn : 1 ≤ n)
    (h : scrape_community_posts response pages (some n) = .ok (l, r)) :
    l.length ≤ n := by
  have hb : scrapeBody response pages (some n) = .ok (l, r) := by
    unfold scrape_community_posts at h
    cases hb : scrapeBody response pages (some n) with
    | error e => rw [hb] at h; exact Except.noConfusion h
    | ok x => rw [hb] at h; exact congrArg Except.ok (Except.ok.inj h)
  cases hgc : getCommunityContents response with
  | error e => simp [scrapeBody, hgc, except_bind_error] at hb
  | ok contents =>
      cases hgt : getToken contents with
      | error e =>
          simp [scrapeBody, hgc, hgt, except_bind_error, except_bind_ok] at hb
      | ok token =>
          cases hpc : processContents (some n) [] contents with
          | error e =>
              simp [scrapeBody, hgc, hgt, hpc, except_bind_error,
                except_bind_ok] at hb
          | ok pe =>
              obtain ⟨posts0, early0⟩ := pe
              have hple : posts0.length ≤ n :=
                processContents_some_le n contents [] posts0 early0
                  (by simpa using hn) hpc
              cases early0 with
              | true =>
                  simp [scrapeBody, hgc, hgt, hpc, except_bind_ok] at hb
                  rw [← hb.1]
                  exact hple
              | false =>
                  rw [show scrapeBody response pages (some n) =
                      scrapeLoop (some n) pages posts0 token 0 from by
                    simp [scrapeBody, hgc, hgt, hpc, except_bind_ok]] at hb
                  exact scrapeLoop_le n pages posts0 token 0 l r hple hb

/-- C2 witness: with maximum 1 and one available post, the result has
exactly 1 post, within the bound. -/
theorem c2_max_bound_witness : ([blankRecord] : List PData).length ≤ 1 :=
  c2_max_bound (mkInitialResponse [postItem blankRenderer]) [] 1 [blankRecord]
    0 (by decide) (by decide)

/-- C9: every record a successful `extract_post_data` returns has exactly
the seven keys post_id, content, timestamp, likes, comments_count, images,
links, in that order. -/
theorem c9_record_keys (pr : PostRenderer) (d : PData)
    (h : extract_post_data pr = .ok d) :
    d.map Prod.fst = ["post_id", "content", "timestamp", "likes",
      "comments_count", "images", "links"] := by
  obtain ⟨ts, cc, imgs, _, _, _, hd⟩ := extract_post_data_ok_inv pr d h
  rw [hd]
  rfl

/-- C9 witness: the keys of the record extracted from the all-absent
renderer. -/
theorem c9_record_keys_witness :
    blankRecord.map Prod.fst = ["post_id", "content", "timestamp", "likes",
      "comments_count", "images", "links"] :=
  c9_record_keys blankRenderer blankRecord (by decide)

/-- C3: with a requested maximum of 5 against pages yielding 3 then 4
posts, `scrape_community_posts` returns exactly the first page's 3 records
followed by the first 2 records of the second page, in original order, and
issues exactly 1 continuation request — it returns immediately upon
reaching the max mid-page, never requesting the page behind the second
marker (the result is independent of `rest`, and renderers 6 and 7 are
never extracted). -/
theorem c3_truncation (p1 p2 p3 p4 p5 p6 p7 : PostRenderer)
    (d1 d2 d3 d4 d5 : PData) (t1 t2 : String) (rest : List ContResponse)
    (h1 : extract_post_data p1 = .ok d1) (h2 : extract_post_data p2 = .ok d2)
    (h3 : extract_post_data p3 = .ok d3) (h4 : extract_post_data p4 = .ok d4)
    (h5 : extract_post_data p5 = .ok d5) (ht1 : t1 ≠ "") :
    scrape_community_posts
      (mkInitialResponse [postItem p1, postItem p2, postItem p3, markerItem t1])
      (mkContResponse [postItem p4, postItem p5, postItem p6, postItem p7,
        markerItem t2] :: rest)
      (some 5) = .ok ([d1, d2, d3, d4, d5], 1) := by
  have htb : tokenTruthy (some t1) = true := by simp [tokenTruthy, ht1]
  simp [scrape_community_posts, scrapeBody, getCommunityContents_mk,
    getContinuationContents_mk, getToken_post_cons, getToken_marker_cons,
    processContents_post_cons p1 d1 h1, processContents_post_cons p2 d2 h2,
    processContents_post_cons p3 d3 h3, processContents_post_cons p4 d4 h4,
    processContents_post_cons p5 d5 h5, processContents_marker_cons,
    processContents_nil, reachedMax, scrapeLoop, htb, underMax,
    except_bind_ok]

/-- C3 witness: the scenario instantiated with all-absent renderers. -/
theorem c3_truncation_witness :
    scrape_community_posts
      (mkInitialResponse [postItem blankRenderer, postItem blankRenderer,
        postItem blankRenderer, markerItem "T"])
      (mkContResponse [postItem blankRenderer, postItem blankRenderer,
        postItem blankRenderer, postItem blankRenderer, markerItem "U"] :: [])
      (some 5) =
    .ok ([blankRecord, blankRecord, blankRecord, blankRecord, blankRecord], 1) :=
  c3_truncation blankRenderer blankRenderer blankRenderer blankRenderer
    blankRenderer blankRenderer blankRenderer blankRecord blankRecord
    blankRecord blankRecord blankRecord "T" "U" [] (by decide) (by decide)
    (by decide) (by decide) (by decide) (by decide)

/-- C4: an item list of exactly one well-formed continuation marker and
three post-thread items yields the three records in original order and the
marker token, for every position of the marker (first, second, third or
last). -/
theorem c4_marker_anywhere (p1 p2 p3 : PostRenderer) (d1 d2 d3 : PData)
    (t : String) (k : Nat) (hk : k ≤ 3)
    (h1 : extract_post_data p1 = .ok d1) (h2 : extract_post_data p2 = .ok d2)
    (h3 : extract_post_data p3 = .ok d3) :
    getToken (([postItem p1, postItem p2, postItem p3].take k) ++
      markerItem t :: ([postItem p1, postItem p2, postItem p3].drop k)) =
      .ok (some t) ∧
    processContents none [] (([postItem p1, postItem p2, postItem p3].take k) ++
      markerItem t :: ([postItem p1, postItem p2, postItem p3].drop k)) =
      .ok ([d1, d2, d3], false) := by
  interval_cases k <;>
    simp [getToken_post_cons, getToken_marker_cons, processContents_marker_cons,
      processContents_post_cons p1 d1 h1, processContents_post_cons p2 d2 h2,
      processContents_post_cons p3 d3 h3, processContents_nil, reachedMax]

/-- C4 witness: marker in the second position among the all-absent posts. -/
theorem c4_marker_anywhere_witness :
    getToken (([postItem blankRenderer, postItem blankRenderer,
      postItem blankRenderer].take 1) ++ markerItem "T" ::
      ([postItem blankRenderer, postItem blankRenderer,
        postItem blankRenderer].drop 1)) = .ok (some "T") ∧
    processContents none [] (([postItem blankRenderer, postItem blankRenderer,
      postItem blankRenderer].take 1) ++ markerItem "T" ::
      ([postItem blankRenderer, postItem blankRenderer,
        postItem blankRenderer].drop 1)) =
      .ok ([blankRecord, blankRecord, blankRecord], false) :=
  c4_marker_anywhere blankRenderer blankRenderer blankRenderer blankRecord
    blankRecord blankRecord "T" 1 (by decide) (by decide) (by decide)
    (by decide)

/-- A tab whose title is community but which carries no `content`
container. -/
def c5CommunityNoContentTab : Tab := ⟨some ⟨some "Community", none⟩⟩

/-- C5 counterexample to the only-if direction: a response whose tab list
does contain a community tab can still fail with a structure error (here
the tab lacks its `content` container), so failing with a structure error
does not imply the community tab was missing. -/
theorem c5_counterexample :
    scrape_community_posts ⟨some ⟨some ⟨some [c5CommunityNoContentTab]⟩⟩⟩ []
      none = .error "Failed to parse YouTube response: KeyError: content" ∧
    ([c5CommunityNoContentTab].find? isCommunityTab).isSome = true := by
  exact ⟨by decide, by decide⟩

/-- C5 (amended, the if direction): whenever the top-level tab list is
present but contains no tab whose title case-insensitively equals
community, `scrape_community_posts` fails with the
`Community tab not found` structure error, the failure is independent of
the continuation pages (no continuation request is consulted), and
`run_main` produces no output document. -/
theorem c5_no_community_tab (tabs : List Tab) (pages : List ContResponse)
    (maxPosts : Option Nat) (ch : String)
    (hfind : tabs.find? isCommunityTab = none) :
    scrape_community_posts ⟨some ⟨some ⟨some tabs⟩⟩⟩ pages maxPosts =
      .error "Failed to parse YouTube response: Community tab not found" ∧
    run_main ⟨some ⟨some ⟨some tabs⟩⟩⟩ pages maxPosts ch =
      .error "Failed to parse YouTube response: Community tab not found" := by
  have hs : scrapeBody ⟨some ⟨some ⟨some tabs⟩⟩⟩ pages maxPosts =
      .error "Community tab not found" := by
    simp [scrapeBody, getCommunityContents, need, hfind, except_bind_error,
      except_bind_ok]
  constructor
  · unfold scrape_community_posts
    rw [hs]
    rfl
  · unfold run_main scrape_community_posts
    rw [hs]
    rfl

/-- C5 witness: a response with an empty tab list. -/
theorem c5_no_community_tab_witness :
    scrape_community_posts ⟨some ⟨some ⟨some []⟩⟩⟩ [] none =
      .error "Failed to parse YouTube response: Community tab not found" ∧
    run_main ⟨some ⟨some ⟨some []⟩⟩⟩ [] none "UC" =
      .error "Failed to parse YouTube response: Community tab not found" :=
  c5_no_community_tab [] [] none "UC" (by decide)

/-- A well-formed run of continuation pages: starting from the token in
hand, every page before the last hands a truthy token to the next, the
token after the last page is not truthy (no marker, or an empty token),
every page parses without early return, and `out` is the final
accumulation reached from `acc`. -/
def contRun : Option String → List (List Item) → List PData → List PData → Prop
  | token, [], acc, out => tokenTruthy token = false ∧ out = acc
  | token, c :: rest, acc, out =>
      tokenTruthy token = true ∧
      ∃ tok2 acc2, getToken c = .ok tok2 ∧
        processContents none acc c = .ok (acc2, false) ∧
        contRun tok2 rest acc2 out

/-- The continuation loop without a maximum walks a well-formed run to its
end, issuing exactly one request per page and accumulating every post of
every page. -/
theorem scrapeLoop_contRun :
    ∀ (cs : List (List Item)) (token : Option String) (acc out : List PData)
      (nreq : Nat), contRun token cs acc out →
      scrapeLoop none (cs.map mkContResponse) acc token nreq =
        .ok (out, nreq + cs.length) ∧
      out.length = acc.length + (cs.map countPosts).sum := by
  intro cs
  induction cs with
  | nil =>
      intro token acc out nreq hrun
      obtain ⟨hft, rfl⟩ := hrun
      exact ⟨by simp [scrapeLoop, hft], by simp⟩
  | cons c rest ih =>
      intro token acc out nreq hrun
      obtain ⟨htt, tok2, acc2, htok, hproc, hrest⟩ := hrun
      obtain ⟨ih1, ih2⟩ := ih tok2 acc2 out (nreq + 1) hrest
      obtain ⟨hlen, _⟩ := processContents_none_count c acc acc2 false hproc
      constructor
      · rw [show scrapeLoop none ((c :: rest).map mkContResponse) acc token nreq =
            scrapeLoop none (rest.map mkContResponse) acc2 tok2 (nreq + 1) from by
          simp [scrapeLoop, htt, underMax, getContinuationContents_mk, htok,
            hproc, except_bind_ok]]
        rw [ih1]
        simp [Nat.add_assoc, Nat.add_comm 1 rest.length]
      · rw [ih2, hlen]
        simp [Nat.add_assoc]

/-- C6: for every sequence of upstream pages forming a well-formed run
whose final page hands over no truthy continuation token, the scrape with
no explicit maximum reaches a result (the embedding is a total function,
so this equation is the termination statement) and the saved document's
posts_count equals the total number of post-thread items across the
initial page and all continuation pages. -/
theorem c6_pages_count (c0 : List Item) (cs : List (List Item))
    (t0 : Option String) (l0 out : List PData) (ch : String)
    (htok0 : getToken c0 = .ok t0)
    (hp0 : processContents none [] c0 = .ok (l0, false))
    (hrun : contRun t0 cs l0 out) :
    run_main (mkInitialResponse c0) (cs.map mkContResponse) none ch =
      .ok (save_posts out ch) ∧
    (save_posts out ch).posts_count =
      countPosts c0 + (cs.map countPosts).sum := by
  obtain ⟨hloop, hcount⟩ := scrapeLoop_contRun cs t0 l0 out 0 hrun
  constructor
  · simp [run_main, scrape_community_posts, scrapeBody,
      getCommunityContents_mk, htok0, hp0, hloop, except_bind_ok]
  · obtain ⟨hl0, _⟩ := processContents_none_count c0 [] l0 false hp0
    simp only [List.length_nil, Nat.zero_add] at hl0
    simp only [save_posts, hcount, hl0]

/-- C6 witness: one post on the initial page, a marker handing over token
T, one post on the single continuation page with no marker; the saved
count is 2. -/
theorem c6_pages_count_witness :
    run_main (mkInitialResponse [postItem blankRenderer, markerItem "T"])
      ([[postItem blankRenderer]].map mkContResponse) none "UC" =
      .ok (save_posts [blankRecord, blankRecord] "UC") ∧
    (save_posts [blankRecord, blankRecord] "UC").posts_count =
      countPosts [postItem blankRenderer, markerItem "T"] +
      ([[postItem blankRenderer]].map countPosts).sum :=
  c6_pages_count [postItem blankRenderer, markerItem "T"]
    [[postItem blankRenderer]] (some "T") [blankRecord]
    [blankRecord, blankRecord] "UC" (by decide) (by decide)
    ⟨by decide, none, [blankRecord, blankRecord], by decide, by decide,
      by decide, rfl⟩

/-- C7: when the renderer has content runs, the links field of the
extracted record is exactly the document-order collection of one entry per
run carrying a navigation target; a run whose target is the root-relative
path /post/abc resolves to the platform origin followed by that path, and
a run with no navigation target contributes no entry. -/
theorem c7_link_resolution (pr : PostRenderer) (runs : List Run) (d : PData)
    (hruns : (pr.contentText.getD default).runs = some runs)
    (hok : extract_post_data pr = .ok d) :
    getVal d "links" = some (.lnks (runs.filterMap linkOfRun)) ∧
    (∀ txt : String,
      linkOfRun ⟨some txt, some ⟨some ⟨some ⟨some "/post/abc"⟩⟩⟩⟩ =
        some ⟨txt, "https://www.youtube.com/post/abc"⟩) ∧
    (∀ r : Run, r.navigationEndpoint = none → linkOfRun r = none) := by
  obtain ⟨ts, cc, imgs, _, _, _, hd⟩ := extract_post_data_ok_inv pr d hok
  refine ⟨?_, ?_, ?_⟩
  · rw [hd]
    show some (PVal.lnks (linksOf pr)) = _
    simp [linksOf, hruns]
  · intro txt
    rfl
  · intro r hr
    simp [linkOfRun, hr]

/-- C7 witness: a single run with text and no navigation target. -/
theorem c7_link_resolution_witness :
    getVal [("post_id", .s ""), ("content", .s "hello"), ("timestamp", .s ""),
      ("likes", .s "0"), ("comments_count", .s "0"), ("images", .imgs []),
      ("links", .lnks [])] "links" =
      some (.lnks (([⟨some "hello", none⟩] : List Run).filterMap linkOfRun)) ∧
    (∀ txt : String,
      linkOfRun ⟨some txt, some ⟨some ⟨some ⟨some "/post/abc"⟩⟩⟩⟩ =
        some ⟨txt, "https://www.youtube.com/post/abc"⟩) ∧
    (∀ r : Run, r.navigationEndpoint = none → linkOfRun r = none) :=
  c7_link_resolution
    { blankRenderer with contentText := some ⟨some [⟨some "hello", none⟩]⟩ }
    [⟨some "hello", none⟩]
    [("post_id", .s ""), ("content", .s "hello"), ("timestamp", .s ""),
      ("likes", .s "0"), ("comments_count", .s "0"), ("images", .imgs []),
      ("links", .lnks [])]
    (by decide) (by decide)

/-- C8: for a renderer whose image attachment carries a first thumbnail
with a url, the images entry of the record has standard equal to that url
and high_res equal to the url truncated at the first `=` with `=s2160`
appended; the thumbnail url https://example/img=w100-h100 yields high_res
https://example/img=s2160. -/
theorem c8_image_derivation (pr : PostRenderer) (d : PData) (u : String)
    (trest : List Thumbnail)
    (hatt : pr.backstageAttachment = some ⟨some ⟨some ⟨some (⟨some u⟩ :: trest)⟩⟩⟩)
    (hok : extract_post_data pr = .ok d) :
    getVal d "images" =
      some (.imgs [⟨u, (pySplitEq u).headD "" ++ "=s2160"⟩]) ∧
    (pySplitEq "https://example/img=w100-h100").headD "" ++ "=s2160" =
      "https://example/img=s2160" := by
  obtain ⟨ts, cc, imgs, _, _, himgs, hd⟩ := extract_post_data_ok_inv pr d hok
  have hval : imagesOf pr = .ok [⟨u, (pySplitEq u).headD "" ++ "=s2160"⟩] := by
    simp [imagesOf, hatt]
  have himg2 : imgs = [⟨u, (pySplitEq u).headD "" ++ "=s2160"⟩] :=
    Except.ok.inj (himgs.symm.trans hval)
  constructor
  · rw [hd, himg2]
    rfl
  · decide

/-- C8 witness: a renderer carrying exactly the thumbnail from the claim. -/
theorem c8_image_derivation_witness :
    getVal [("post_id", .s ""), ("content", .s ""), ("timestamp", .s ""),
      ("likes", .s "0"), ("comments_count", .s "0"),
      ("images", .imgs [⟨"https://example/img=w100-h100",
        "https://example/img=s2160"⟩]),
      ("links", .lnks [])] "images" =
      some (.imgs [⟨"https://example/img=w100-h100",
        (pySplitEq "https://example/img=w100-h100").headD "" ++ "=s2160"⟩]) ∧
    (pySplitEq "https://example/img=w100-h100").headD "" ++ "=s2160" =
      "https://example/img=s2160" :=
  c8_image_derivation
    { blankRenderer with backstageAttachment := some (BackstageAttachment.mk (some (BackstageImageRenderer.mk (some (ImageObj.mk (some [Thumbnail.mk (some "https://example/img=w100-h100")])))))) }
    [("post_id", .s ""), ("content", .s ""), ("timestamp", .s ""),
      ("likes", .s "0"), ("comments_count", .s "0"),
      ("images", .imgs [⟨"https://example/img=w100-h100",
        "https://example/img=s2160"⟩]),
      ("links", .lnks [])]
    "https://example/img=w100-h100" [] (by decide) (by decide)

/-- C10: when the items before the first continuation marker carry no
marker of their own, the computed token is the first marker's token,
whatever items (including further markers) follow it — the driver uses
that token for the next request and ignores all later markers. -/
theorem c10_first_marker_wins (l1 : List Item) (t1 : String) (rest : List Item)
    (hnone : ∀ item ∈ l1, item.continuationItemRenderer = none) :
    getToken (l1 ++ markerItem t1 :: rest) = .ok (some t1) := by
  induction l1 with
  | nil => exact getToken_marker_cons t1 rest
  | cons it l ih =>
      have h1 : it.continuationItemRenderer = none := hnone it (by simp)
      rw [show getToken ((it :: l) ++ markerItem t1 :: rest) =
          getToken (l ++ markerItem t1 :: rest) from by
        simp [getToken, List.find?, h1]]
      exact ih fun x hx => hnone x (by simp [hx])

/-- C10 witness: a post item, then a marker with token A, then a second
marker with token B; the token used is A. -/
theorem c10_first_marker_wins_witness :
    getToken ([postItem blankRenderer] ++ markerItem "A" :: [markerItem "B"]) =
      .ok (some "A") :=
  c10_first_marker_wins [postItem blankRenderer] "A" [markerItem "B"]
    (by decide)

end PostArchiver
